import Mathlib

/-!
Verification of the Cosori kettle BLE protocol engine
(`src/components/cosori_kettle_ble/`).

The development shallowly embeds the frame codec (`envelope.h`), the payload
builders/parsers (`protocol.cpp`), and the engine state logic
(`cosori_kettle_state.cpp`) in Lean.  Bytes are `Nat` values; `uint8_t`
arithmetic is made explicit with `% 256`, `uint16_t` with `% 65536`,
`uint32_t` with `% 4294967296`.  Byte buffers are `List Nat`; the C `float`
fields that only store and compare small integral temperatures are modelled
over `ℚ`.
-/

namespace CosoriKettle

/-! ## Protocol constants (envelope.h lines 10-17, protocol.h lines 11-34) -/

def FRAME_MAGIC : Nat := 0xA5
def MESSAGE_HEADER_TYPE : Nat := 0x22
def ACK_HEADER_TYPE : Nat := 0x12
def BLE_CHUNK_SIZE : Nat := 20
def ENVELOPE_BUFFER_SIZE : Nat := 512

def CMD_HELLO : Nat := 0x81
def CMD_POLL : Nat := 0x40
def CMD_CTRL : Nat := 0x41
def CMD_SET_MODE : Nat := 0xF0
def CMD_SET_HOLD_TIME : Nat := 0xF2
def CMD_SET_MY_TEMP : Nat := 0xF3
def CMD_STOP : Nat := 0xF4
def CMD_SET_BABY_FORMULA : Nat := 0xF5
def CMD_TYPE_A3 : Nat := 0xA3
def CMD_TYPE_40 : Nat := 0x40

def MIN_TEMP_F : Nat := 104
def MAX_TEMP_F : Nat := 212
def MIN_VALID_READING_F : Nat := 40
def MAX_VALID_READING_F : Nat := 230

/-! ## Checksums (envelope.h lines 266-291, `Envelope::calculate_checksum`)

The v1 algorithm folds `checksum = (checksum - byte) & 0xFF` over every byte
of the frame, substituting the byte at index 5 (the checksum slot) by the
literal `0x01`.  On `uint8_t` operands, `(c - b) & 0xFF` is
`(c + 256 - b % 256) % 256`. -/

def checksum_v1_go (i c : Nat) : List Nat → Nat
  | [] => c
  | b :: rest =>
      checksum_v1_go (i + 1) ((c + 256 - (if i = 5 then 0x01 else b) % 256) % 256) rest

/-- Embeds `Envelope::calculate_checksum(buffer, buffer_len)`: v1 is selected when
the first payload byte `buffer[6]` exists and equals `0x01`; otherwise the v0
header-sum is used (returning 0 for buffers shorter than a header). -/
def calculate_checksum (buffer : List Nat) : Nat :=
  if buffer.length > 6 ∧ buffer.getD 6 0 = 0x01 then
    checksum_v1_go 0 0 buffer
  else if buffer.length < 6 then 0
  else (FRAME_MAGIC + buffer.getD 1 0 + buffer.getD 2 0 + buffer.getD 3 0
        + buffer.getD 4 0) % 256

/-! ## Envelope buffer (envelope.h lines 19-296)

The C++ `Envelope` owns a fixed 512-byte array holding `size_` valid bytes
and a read cursor `pos_`.  Only the first `size_` bytes are ever read, so the
buffer is modelled as the list of those bytes. -/

structure Envelope where
  buffer : List Nat
  pos : Nat
  deriving Repr, DecidableEq

namespace Envelope

def empty : Envelope := ⟨[], 0⟩

/-- Embeds `Envelope::clear()` (envelope.h lines 24-27). -/
def clear (_e : Envelope) : Envelope := empty

/-- Embeds `Envelope::size()`. -/
def size (e : Envelope) : Nat := e.buffer.length

/-- Embeds `Envelope::append(data, len)` (envelope.h lines 58-66). -/
def append (e : Envelope) (data : List Nat) : Option Envelope :=
  if e.size + data.length > ENVELOPE_BUFFER_SIZE then none
  else some { e with buffer := e.buffer ++ data }

/-- Embeds `Envelope::build(frame_type, seq, payload, payload_len)` (envelope.h
lines 69-95).  The `uint8_t` parameters are reduced `% 256`; the header is
written with `0x01` in the checksum slot, and the checksum over the whole
packet is then stored at index 5. -/
def build (frame_type seq : Nat) (payload : List Nat) : Option Envelope :=
  let payload_len := payload.length
  if 6 + payload_len > ENVELOPE_BUFFER_SIZE then none
  else
    let buf := [FRAME_MAGIC, frame_type % 256, seq % 256,
                payload_len % 256, (payload_len >>> 8) % 256, 0x01] ++ payload
    some { buffer := buf.set 5 (calculate_checksum buf), pos := 0 }

/-- Embeds `Envelope::set_message_payload` (envelope.h lines 98-100). -/
def set_message_payload (seq : Nat) (payload : List Nat) : Option Envelope :=
  build MESSAGE_HEADER_TYPE seq payload

/-- Embeds `Envelope::set_ack_payload` (envelope.h lines 103-105). -/
def set_ack_payload (seq : Nat) (payload : List Nat) : Option Envelope :=
  build ACK_HEADER_TYPE seq payload

/-- Embeds `Envelope::get_chunk_data(chunk_index)` (envelope.h lines 109-117):
returns the ≤20-byte slice at `chunk_index * 20`, or `none` past the end. -/
def get_chunk_data (e : Envelope) (chunk_index : Nat) : Option (List Nat) :=
  let offset := chunk_index * BLE_CHUNK_SIZE
  if offset ≥ e.size then none
  else some ((e.buffer.drop offset).take BLE_CHUNK_SIZE)

/-- Embeds `Envelope::get_chunk_count()` (envelope.h lines 120-125). -/
def get_chunk_count (e : Envelope) : Nat :=
  if e.size = 0 then 0 else (e.size + BLE_CHUNK_SIZE - 1) / BLE_CHUNK_SIZE

/-- Embeds `Envelope::FrameInfo` (envelope.h lines 128-134); the C struct exposes a
pointer into the buffer, modelled as the payload byte list itself. -/
structure FrameInfo where
  frame_type : Nat
  seq : Nat
  payload_len : Nat
  payload : List Nat
  valid : Bool
  deriving Repr, DecidableEq

def FrameInfo.invalid : FrameInfo := ⟨0, 0, 0, [], false⟩

/-- Embeds `Envelope::find_frame_start()` (envelope.h lines 233-240): index of the
first `FRAME_MAGIC` at or after the cursor, or `size` if none. -/
def findMagicIdx : List Nat → Option Nat
  | [] => none
  | b :: rest =>
      if b = FRAME_MAGIC then some 0 else (findMagicIdx rest).map (· + 1)

def find_frame_start (e : Envelope) : Nat :=
  match findMagicIdx (e.buffer.drop e.pos) with
  | some j => e.pos + j
  | none => e.size

/-- Embeds `Envelope::validate_frame_header_at_pos` (envelope.h lines 245-261):
yields `(frame_type, seq, payload_len, checksum)` when a 6-byte header
starting with the magic byte lies at the cursor.  `payload_len` is
`buffer[pos+3] | (buffer[pos+4] << 8)`. -/
def validate_frame_header_at_pos (e : Envelope) :
    Option (Nat × Nat × Nat × Nat) :=
  if e.pos + 6 > e.size then none
  else if e.buffer.getD e.pos 0 ≠ FRAME_MAGIC then none
  else some (e.buffer.getD (e.pos + 1) 0, e.buffer.getD (e.pos + 2) 0,
             (e.buffer.getD (e.pos + 3) 0) ||| ((e.buffer.getD (e.pos + 4) 0) <<< 8),
             e.buffer.getD (e.pos + 5) 0)

/-- Loop body of `Envelope::process_next_frame` (envelope.h lines 140-208).
The C `while (true)` loop advances the cursor by at least one byte whenever
it iterates again, so `size + 1` fuel always suffices (see
`process_next_frame`). -/
def processNextFrameAux (max_payload_size : Nat) :
    Nat → Envelope → FrameInfo × Envelope
  | 0, e => (FrameInfo.invalid, e)
  | fuel + 1, e =>
    let frame_start := find_frame_start e
    if frame_start ≥ e.size then
      (FrameInfo.invalid, { e with pos := e.size })
    else
      let e := { e with pos := frame_start }
      match validate_frame_header_at_pos e with
      | none => processNextFrameAux max_payload_size fuel { e with pos := e.pos + 1 }
      | some (frame_type, seq, payload_len, checksum) =>
        if payload_len > max_payload_size then
          processNextFrameAux max_payload_size fuel { e with pos := e.pos + 1 }
        else
          let frame_len := 6 + payload_len
          if e.pos + frame_len > e.size then
            (FrameInfo.invalid, e)
          else
            let calculated := calculate_checksum ((e.buffer.drop e.pos).take frame_len)
            if checksum ≠ calculated then
              processNextFrameAux max_payload_size fuel { e with pos := e.pos + 1 }
            else
              (⟨frame_type, seq, payload_len,
                (e.buffer.drop (e.pos + 6)).take payload_len, true⟩,
               { e with pos := e.pos + frame_len })

/-- Embeds `Envelope::process_next_frame(max_payload_size)` (envelope.h lines
140-208), returning the extracted frame info together with the updated
buffer state. -/
def process_next_frame (e : Envelope) (max_payload_size : Nat) :
    FrameInfo × Envelope :=
  processNextFrameAux max_payload_size (e.size + 1) e

/-- Embeds `Envelope::compact()` (envelope.h lines 212-229). -/
def compact (e : Envelope) : Envelope :=
  if e.pos = 0 then e
  else if e.pos ≥ e.size then empty
  else ⟨e.buffer.drop e.pos, 0⟩

end Envelope

/-! ## Payload builders (protocol.cpp lines 11-141)

Each C builder writes into a caller-supplied array and returns the byte
count; with a valid output pointer the result is fully determined by the
inputs, so the builders are modelled as functions to the byte list.
`uint8_t` parameters are reduced `% 256`, `uint16_t` parameters `% 65536`. -/

/-- Embeds `build_status_request_payload` (protocol.cpp lines 34-45). -/
def build_status_request_payload (protocol_version : Nat) : List Nat :=
  [protocol_version % 256, CMD_POLL, CMD_TYPE_40, 0x00]

/-- Embeds `build_compact_status_request_payload` (protocol.cpp lines 47-58). -/
def build_compact_status_request_payload (protocol_version : Nat) : List Nat :=
  [protocol_version % 256, CMD_CTRL, CMD_TYPE_40, 0x00]

/-- Embeds `build_set_my_temp_payload` (protocol.cpp lines 60-78): clamps the
temperature to `[MIN_TEMP_F, MAX_TEMP_F]` before encoding. -/
def build_set_my_temp_payload (protocol_version temp_f : Nat) : List Nat :=
  let t := temp_f % 256
  let t := if t < MIN_TEMP_F then MIN_TEMP_F else t
  let t := if t > MAX_TEMP_F then MAX_TEMP_F else t
  [protocol_version % 256, CMD_SET_MY_TEMP, CMD_TYPE_A3, 0x00, t]

/-- Embeds `build_set_baby_formula_payload` (protocol.cpp lines 80-92). -/
def build_set_baby_formula_payload (protocol_version : Nat) (enabled : Bool) :
    List Nat :=
  [protocol_version % 256, CMD_SET_BABY_FORMULA, CMD_TYPE_A3, 0x00,
   if enabled then 0x01 else 0x00]

/-- Embeds `build_set_hold_time_payload` (protocol.cpp lines 94-109): a `0x00` pad
at offset 4, the hold-enable flag at offset 5, then the seconds big-endian. -/
def build_set_hold_time_payload (protocol_version seconds : Nat) : List Nat :=
  let s := seconds % 65536
  [protocol_version % 256, CMD_SET_HOLD_TIME, CMD_TYPE_A3, 0x00,
   0x00, if s > 0 then 0x01 else 0x00, (s >>> 8) % 256, s % 256]

/-- Embeds `build_set_mode_payload` (protocol.cpp lines 111-128). -/
def build_set_mode_payload (protocol_version mode temp_f hold_time_seconds : Nat) :
    List Nat :=
  let h := hold_time_seconds % 65536
  [protocol_version % 256, CMD_SET_MODE, CMD_TYPE_A3, 0x00, mode % 256,
   temp_f % 256, if h > 0 then 0x01 else 0x00, (h >>> 8) % 256, h % 256]

/-- Embeds `build_stop_payload` (protocol.cpp lines 130-141). -/
def build_stop_payload (protocol_version : Nat) : List Nat :=
  [protocol_version % 256, CMD_STOP, CMD_TYPE_A3, 0x00]

/-! ## Status parsers (protocol.cpp lines 147-232)

The C parsers take `(payload, len)`; in the repository `len` is always the
number of valid payload bytes, so the payload list carries the length.
`protocol.cpp` initializes an `ExtendedStatus` with 13 fields and assigns
`my_temp`/`hold_time`/`on_base`/`baby_formula_enabled` plus `has_*` flags;
the engine file (`cosori_kettle_state.cpp`) reads `configured_hold_time` and
`remaining_hold_time`, fields of the other revision of the struct declared in
`protocol.h`.  The Lean structure carries the union of the two field sets so
each source file can be embedded verbatim; fields a revision does not assign
stay at their zero initialization. -/

structure CompactStatus where
  stage : Nat
  mode : Nat
  setpoint : Nat
  temp : Nat
  status : Nat
  valid : Bool
  deriving Repr, DecidableEq

structure ExtendedStatus where
  stage : Nat
  mode : Nat
  setpoint : Nat
  temp : Nat
  my_temp : Nat
  hold_time : Nat
  configured_hold_time : Nat
  remaining_hold_time : Nat
  valid : Bool
  has_my_temp : Bool
  on_base : Bool
  has_on_base : Bool
  has_hold_time : Bool
  baby_formula_enabled : Bool
  has_baby_formula : Bool
  deriving Repr, DecidableEq

def CompactStatus.zero : CompactStatus := ⟨0, 0, 0, 0, 0, false⟩

def ExtendedStatus.zero : ExtendedStatus :=
  ⟨0, 0, 0, 0, 0, 0, 0, 0, false, false, false, false, false, false, false⟩

/-- Embeds `parse_compact_status(payload, len)` (protocol.cpp lines 147-174). -/
def parse_compact_status (payload : List Nat) : CompactStatus :=
  if payload.length < 9 ∨ payload.getD 1 0 ≠ CMD_CTRL then CompactStatus.zero
  else
    let temp := payload.getD 7 0
    if temp < MIN_VALID_READING_F ∨ temp > MAX_VALID_READING_F then
      CompactStatus.zero
    else
      { stage := payload.getD 4 0, mode := payload.getD 5 0,
        setpoint := payload.getD 6 0, temp := temp,
        status := payload.getD 8 0, valid := true }

/-- Embeds `parse_extended_status(payload, len)` (protocol.cpp lines 176-232). -/
def parse_extended_status (payload : List Nat) : ExtendedStatus :=
  if payload.length < 8 ∨ payload.getD 1 0 ≠ CMD_POLL then ExtendedStatus.zero
  else
    let temp := payload.getD 7 0
    if temp < MIN_VALID_READING_F ∨ temp > MAX_VALID_READING_F then
      ExtendedStatus.zero
    else
      let s := { ExtendedStatus.zero with
        stage := payload.getD 4 0, mode := payload.getD 5 0,
        setpoint := payload.getD 6 0, temp := temp, valid := true }
      let s := if payload.length ≥ 9 then
          let mytemp := payload.getD 8 0
          if MIN_TEMP_F ≤ mytemp ∧ mytemp ≤ MAX_TEMP_F then
            { s with my_temp := mytemp, has_my_temp := true }
          else s
        else s
      let s := if payload.length ≥ 15 then
          { s with on_base := payload.getD 14 0 == 0x00, has_on_base := true }
        else s
      let s := if payload.length ≥ 17 then
          { s with
            hold_time := (((payload.getD 15 0 % 256) <<< 8) ||| (payload.getD 16 0)),
            has_hold_time := true }
        else s
      if payload.length ≥ 29 then
        { s with
          baby_formula_enabled := (payload.getD 28 0 == 0x01),
          has_baby_formula := true }
      else s

/-! ## Engine state (cosori_kettle_state.h lines 46-223,
cosori_kettle_state.cpp)

`EngineState` gathers the `KettleState` fields, the protocol/chunking state
and the pending flags of `CosoriKettleState`.  The `float` fields are
modelled over `ℚ` (the values the engine itself writes into them are small
integers); the full `float` argument domain of `set_target_setpoint`,
including NaN and the infinities, is modelled separately by `CFloat` below.
The send-data callback is modelled by `has_send_callback` together with a
`sent_chunks` trace recording every chunk handed to it. -/

structure EngineState where
  current_temp_f : ℚ
  kettle_setpoint_f : ℚ
  target_setpoint_f : ℚ
  hold_time_seconds : Nat
  remaining_hold_time_seconds : Nat
  my_temp_f : Nat
  baby_formula_enabled : Bool
  on_base : Bool
  heating : Bool
  status_received : Bool
  no_response_count : Nat
  last_rx_seq : Nat
  tx_seq : Nat
  last_ack_error_code : Nat
  waiting_for_ack_complete : Bool
  waiting_for_ack_seq : Nat
  last_status_seq : Nat
  send_buffer : Envelope
  recv_buffer : Envelope
  send_chunk_index : Nat
  send_total_chunks : Nat
  waiting_for_write_ack : Bool
  pending_hold_time : Bool
  pending_my_temp : Bool
  pending_baby_formula : Bool
  protocol_version : Nat
  has_send_callback : Bool
  sent_chunks : List (List Nat)
  deriving Repr, DecidableEq

namespace EngineState

/-- Construction defaults: `KettleState()` (cosori_kettle_state.h lines
68-79) and the `CosoriKettleState` constructor (cosori_kettle_state.cpp
lines 33-56), with protocol version 0 from `Config()`. -/
def init : EngineState where
  current_temp_f := 0
  kettle_setpoint_f := 0
  target_setpoint_f := 212
  hold_time_seconds := 0
  remaining_hold_time_seconds := 0
  my_temp_f := 179
  baby_formula_enabled := false
  on_base := false
  heating := false
  status_received := false
  no_response_count := 0
  last_rx_seq := 0
  tx_seq := 0
  last_ack_error_code := 0
  waiting_for_ack_complete := false
  waiting_for_ack_seq := 0
  last_status_seq := 0
  send_buffer := Envelope.empty
  recv_buffer := Envelope.empty
  send_chunk_index := 0
  send_total_chunks := 0
  waiting_for_write_ack := false
  pending_hold_time := false
  pending_my_temp := false
  pending_baby_formula := false
  protocol_version := 0
  has_send_callback := true
  sent_chunks := []

/-- Embeds `CosoriKettleState::reset()` (cosori_kettle_state.cpp lines 88-95):
called on disconnect; clears the receive buffer, the liveness fields and the
chunking state — and nothing else. -/
def reset (st : EngineState) : EngineState :=
  { st with
    recv_buffer := st.recv_buffer.clear
    status_received := false
    no_response_count := 0
    send_chunk_index := 0
    send_total_chunks := 0
    waiting_for_write_ack := false }

/-- Embeds `CosoriKettleState::track_online_status()` (cosori_kettle_state.cpp
lines 805-814): increments `no_response_count` below the threshold 10, then
drops `status_received` once the count has reached the threshold. -/
def track_online_status (st : EngineState) : EngineState :=
  let c := if st.no_response_count < 10 then st.no_response_count + 1
           else st.no_response_count
  { st with
    no_response_count := c
    status_received := if c ≥ 10 ∧ st.status_received then false
                       else st.status_received }

/-- Embeds `CosoriKettleState::reset_online_status()` (cosori_kettle_state.cpp
lines 816-818). -/
def reset_online_status (st : EngineState) : EngineState :=
  { st with no_response_count := 0 }

/-- Embeds `CosoriKettleState::next_tx_seq()` (cosori_kettle_state.cpp lines
555-562), returning the new sequence number with the updated state. -/
def next_tx_seq (st : EngineState) : Nat × EngineState :=
  let s := if st.tx_seq = 0 ∧ st.last_rx_seq ≠ 0 then (st.last_rx_seq + 1) % 256
           else (st.tx_seq + 1) % 256
  (s, { st with tx_seq := s })

/-- Embeds `CosoriKettleState::send_next_chunk()` (cosori_kettle_state.cpp lines
420-450). -/
def send_next_chunk (st : EngineState) : EngineState :=
  if st.send_chunk_index ≥ st.send_total_chunks then
    { st with send_chunk_index := 0, send_total_chunks := 0,
              waiting_for_write_ack := false }
  else
    match st.send_buffer.get_chunk_data st.send_chunk_index with
    | none =>
        { st with send_chunk_index := 0, send_total_chunks := 0,
                  waiting_for_write_ack := false }
    | some chunk =>
        if chunk.length = 0 then
          { st with send_chunk_index := 0, send_total_chunks := 0,
                    waiting_for_write_ack := false }
        else
          let st := { st with waiting_for_write_ack := true }
          if st.has_send_callback then
            { st with sent_chunks := st.sent_chunks ++ [chunk] }
          else
            { st with waiting_for_write_ack := false }

/-- Embeds `CosoriKettleState::send_command(seq, payload, payload_len, is_ack)`
(cosori_kettle_state.cpp lines 379-418): rejected outright while a send
session is active; otherwise builds the frame into the send buffer, derives
the chunk count and sends the first chunk. -/
def send_command (st : EngineState) (seq : Nat) (payload : List Nat)
    (is_ack : Bool) : Bool × EngineState :=
  if st.waiting_for_write_ack then (false, st)
  else if st.send_chunk_index < st.send_total_chunks then (false, st)
  else
    let built := if is_ack then Envelope.set_ack_payload seq payload
                 else Envelope.set_message_payload seq payload
    match built with
    | none => (false, st)
    | some env =>
        let st := { st with send_buffer := env }
        let st := { st with send_total_chunks := env.get_chunk_count }
        if st.send_total_chunks = 0 then (false, st)
        else
          let st := { st with send_chunk_index := 0,
                              waiting_for_write_ack := false }
          (true, st.send_next_chunk)

/-- Embeds `CosoriKettleState::on_write_ack(success)` (cosori_kettle_state.cpp
lines 118-135). -/
def on_write_ack (st : EngineState) (success : Bool) : EngineState :=
  if ¬ st.waiting_for_write_ack then st
  else if success then
    ({ st with send_chunk_index := st.send_chunk_index + 1,
               waiting_for_write_ack := false }).send_next_chunk
  else
    { st with send_chunk_index := 0, send_total_chunks := 0,
              waiting_for_write_ack := false }

/-- Embeds `CosoriKettleState::send_set_my_temp(temp_f)` (cosori_kettle_state.cpp
lines 286-298): the builder never returns length 0 for a non-null buffer, so
the command is always attempted. -/
def send_set_my_temp (st : EngineState) (temp_f : Nat) : EngineState :=
  let (seq, st) := st.next_tx_seq
  (st.send_command seq (build_set_my_temp_payload st.protocol_version temp_f)
    false).2

/-- Embeds `CosoriKettleState::send_set_baby_formula(enabled)`
(cosori_kettle_state.cpp lines 300-312). -/
def send_set_baby_formula (st : EngineState) (enabled : Bool) : EngineState :=
  let (seq, st) := st.next_tx_seq
  (st.send_command seq
    (build_set_baby_formula_payload st.protocol_version enabled) false).2

/-- Embeds `CosoriKettleState::send_set_hold_time(seconds)`
(cosori_kettle_state.cpp lines 314-326). -/
def send_set_hold_time (st : EngineState) (seconds : Nat) : EngineState :=
  let (seq, st) := st.next_tx_seq
  (st.send_command seq
    (build_set_hold_time_payload st.protocol_version seconds) false).2

/-- Embeds `CosoriKettleState::set_my_temp(temp_f)` (cosori_kettle_state.cpp lines
194-207): the `uint8_t` argument is clamped, stored, marked pending and
sent. -/
def set_my_temp (st : EngineState) (temp_f : Nat) : EngineState :=
  let t := temp_f % 256
  let t := if t < MIN_TEMP_F then MIN_TEMP_F else t
  let t := if t > MAX_TEMP_F then MAX_TEMP_F else t
  let st := { st with my_temp_f := t, pending_my_temp := true }
  st.send_set_my_temp t

/-- Embeds `CosoriKettleState::set_hold_time(seconds)` (cosori_kettle_state.cpp
lines 185-192). -/
def set_hold_time (st : EngineState) (seconds : Nat) : EngineState :=
  let s := seconds % 65536
  let st := { st with hold_time_seconds := s, pending_hold_time := true }
  st.send_set_hold_time s

/-- Embeds `CosoriKettleState::set_baby_formula_enabled(enabled)`
(cosori_kettle_state.cpp lines 209-216). -/
def set_baby_formula_enabled (st : EngineState) (enabled : Bool) : EngineState :=
  let st := { st with baby_formula_enabled := enabled,
                      pending_baby_formula := true }
  st.send_set_baby_formula enabled

/-- Embeds `CosoriKettleState::parse_compact_status(payload, len)`
(cosori_kettle_state.cpp lines 507-520): on an invalid parse the state is
returned untouched; otherwise the kettle caches are refreshed and the
liveness counter reset. -/
def parse_compact_status_frame (st : EngineState) (payload : List Nat) :
    EngineState :=
  let status := parse_compact_status payload
  if ¬ status.valid then st
  else
    let st := { st with
      current_temp_f := (status.temp : ℚ)
      kettle_setpoint_f := (status.setpoint : ℚ)
      heating := status.stage ≠ 0
      status_received := true
      last_status_seq := st.last_rx_seq }
    st.reset_online_status

/-- Embeds `CosoriKettleState::parse_status_ack(payload, len)`
(cosori_kettle_state.cpp lines 522-549).  The hold-time reads
(`configured_hold_time`, `remaining_hold_time`) refer to the `protocol.h`
revision of `ExtendedStatus`; they stay at the zero initialization of the parser
here (see the note above `ExtendedStatus`). -/
def parse_status_ack_frame (st : EngineState) (payload : List Nat) :
    EngineState :=
  let status := parse_extended_status payload
  if ¬ status.valid then st
  else
    let st := { st with
      current_temp_f := (status.temp : ℚ)
      kettle_setpoint_f := (status.setpoint : ℚ)
      heating := status.stage ≠ 0
      status_received := true
      last_status_seq := st.last_rx_seq
      on_base := status.on_base
      remaining_hold_time_seconds := status.remaining_hold_time }
    let st := if ¬ st.pending_my_temp then { st with my_temp_f := status.my_temp }
              else st
    let st := if ¬ st.pending_hold_time then
                { st with hold_time_seconds := status.configured_hold_time }
              else st
    let st := if ¬ st.pending_baby_formula then
                { st with baby_formula_enabled := status.baby_formula_enabled }
              else st
    st.reset_online_status

end EngineState

/-! ## The C float domain of set_target_setpoint

`CosoriKettleState::set_target_setpoint` takes a C `float`.  Every finite
float value is a rational number, and the remaining values are the two
infinities and NaN; IEEE-754 ordered comparisons (`<`, `>`) are false
whenever either operand is NaN. -/

inductive CFloat where
  | nan
  | neg_inf
  | inf
  | fin (q : ℚ)
  deriving Repr, DecidableEq

/-- Models the IEEE-754 ordered comparison `a < b` on C floats: false
whenever either operand is NaN. -/
def CFloat.lt : CFloat → CFloat → Bool
  | nan, _ => false
  | _, nan => false
  | neg_inf, neg_inf => false
  | neg_inf, _ => true
  | _, neg_inf => false
  | inf, _ => false
  | _, inf => true
  | fin a, fin b => decide (a < b)

/-- Embeds `CosoriKettleState::set_target_setpoint(temp_f)`
(cosori_kettle_state.cpp lines 174-183) over the full C `float` domain:
`if (temp_f < MIN_TEMP_F) temp_f = MIN_TEMP_F;
if (temp_f > MAX_TEMP_F) temp_f = MAX_TEMP_F;` (where `a > b` is `b < a`),
and the resulting value is stored into `state_.target_setpoint_f`; nothing
is sent.  A NaN argument fails both comparisons and is stored unchanged. -/
def set_target_setpoint_value (temp_f : CFloat) : CFloat :=
  let t := if CFloat.lt temp_f (.fin MIN_TEMP_F) then CFloat.fin MIN_TEMP_F
           else temp_f
  if CFloat.lt (.fin MAX_TEMP_F) t then CFloat.fin MAX_TEMP_F else t

/-! ## Liveness tracking (cosori_kettle_state.cpp lines 805-818, 507-549,
88-95)

`status_received` / `no_response_count` is written at exactly four places in
the engine: `track_online_status` (every `update()` tick),
`reset_online_status` together with `status_received = true` (both status
frame parsers, on a valid parse only), and `reset()` (disconnect).
`LivenessReachable` closes the initial state under those events. -/

structure Liveness where
  status_received : Bool
  no_response_count : Nat
  deriving Repr, DecidableEq

/-- The liveness half of `track_online_status` (cosori_kettle_state.cpp
lines 805-814). -/
def Liveness.track (l : Liveness) : Liveness :=
  let c := if l.no_response_count < 10 then l.no_response_count + 1
           else l.no_response_count
  { no_response_count := c
    status_received := if c ≥ 10 ∧ l.status_received then false
                       else l.status_received }

inductive LivenessReachable : Liveness → Prop
  /-- Embeds `KettleState()` defaults (cosori_kettle_state.h lines 78-79). -/
  | init : LivenessReachable ⟨false, 0⟩
  /-- Embeds `update()` always starts with `track_online_status()`
  (cosori_kettle_state.cpp line 142). -/
  | tick {l} : LivenessReachable l → LivenessReachable l.track
  /-- A successfully parsed status frame: `status_received = true` then
  `reset_online_status()` (cosori_kettle_state.cpp lines 516-519, 531-548). -/
  | status_frame {l} : LivenessReachable l → LivenessReachable ⟨true, 0⟩
  /-- Embeds `reset()` on disconnect (cosori_kettle_state.cpp lines 90-91). -/
  | disconnect {l} : LivenessReachable l → LivenessReachable ⟨false, 0⟩

/-! ## Command state machine, stop sequence (cosori_kettle_state.cpp lines
246-252, 564-638, 770-793)

`machineTick` embeds `process_command_state_machine(now_ms)` on the states
the stop sequence visits.  The dispatched handlers `handle_stop`,
`handle_stop_poll` and `handle_stop_repeat` only move within
`{STOP, STOP_POLL, STOP_REPEAT, IDLE}`, so the handlers of the remaining states
(never invoked from a stop run) are embedded as no-ops.  Commands handed to
`send_stop` / `send_request_compact_status` are recorded in an emission
trace.  Times are `uint32_t`; `elapsed = now_ms - command_state_time_` is
`(now + 2^32 - t) % 2^32` on values below `2^32`.  The C recursion
re-dispatches at most once per transition here, so any fuel ≥ 2 computes it
exactly; `machine_tick` uses the number of states. -/

inductive CommandState
  | IDLE
  | HANDSHAKE_START
  | HANDSHAKE_WAIT_CHUNKS
  | HANDSHAKE_POLL
  | HEAT_START
  | HEAT_SET_TEMP
  | HEAT_POLL
  | HEAT_POLL_REPEAT
  | HEAT_COMPLETE
  | STOP
  | STOP_POLL
  | STOP_REPEAT
  deriving Repr, DecidableEq

inductive StopCmd
  | stop
  | ctrl
  deriving Repr, DecidableEq

def CONTROL_DELAY_MS : Nat := 50
def IDLE_TIMEOUT_MS : Nat := 30000
def U32 : Nat := 4294967296

/-- One dispatch of the `switch` (cosori_kettle_state.cpp lines 587-624)
restricted to the stop-sequence states: `handle_stop` (lines 770-773) emits
a stop command and transitions; `handle_stop_poll` (lines 775-783) emits a
compact-status request after the control delay; `handle_stop_repeat` (lines
785-793) emits the second stop command and settles to `IDLE` without
updating the entry time.  Returns (new state, new entry time, emissions). -/
def stopDispatch (cs : CommandState) (t elapsed now : Nat) :
    CommandState × Nat × List StopCmd :=
  match cs with
  | .STOP => (.STOP_POLL, now, [.stop])
  | .STOP_POLL =>
      if elapsed < CONTROL_DELAY_MS then (cs, t, [])
      else (.STOP_REPEAT, now, [.ctrl])
  | .STOP_REPEAT =>
      if elapsed < CONTROL_DELAY_MS then (cs, t, [])
      else (.IDLE, t, [.stop])
  | _ => (cs, t, [])

/-- Embeds `process_command_state_machine(now_ms)` (cosori_kettle_state.cpp lines
573-638): lazily initializes the entry time, dispatches, recursively
re-dispatches on a transition, then applies the 30 s idle watchdog when the
state did not change. -/
def machineTick : Nat → CommandState → Nat → Nat → CommandState × Nat × List StopCmd
  | 0, cs, t, _ => (cs, t, [])
  | fuel + 1, cs, t, now =>
    let t := if t = 0 then now else t
    let elapsed := (now + U32 - t) % U32
    let (cs1, t1, out1) := stopDispatch cs t elapsed now
    let (cs2, t2, out2) :=
      if cs1 ≠ cs then machineTick fuel cs1 t1 now else (cs1, t1, [])
    let cs3 := if cs2 ≠ .IDLE ∧ cs2 = cs ∧ elapsed ≥ IDLE_TIMEOUT_MS then .IDLE
               else cs2
    (cs3, t2, out1 ++ out2)

def machine_tick (cs : CommandState) (t now : Nat) :
    CommandState × Nat × List StopCmd :=
  machineTick 12 cs t (now % U32)

/-- A run of the state machine: ticks at the given sequence of `now_ms`
values, concatenating the emission traces. -/
def runTicks (cs : CommandState) (t : Nat) :
    List Nat → CommandState × Nat × List StopCmd
  | [] => (cs, t, [])
  | now :: rest =>
      let (cs1, t1, out1) := machine_tick cs t now
      let (cs2, t2, out2) := runTicks cs1 t1 rest
      (cs2, t2, out1 ++ out2)

/-! ## Claim C5: the set-custom-temp frame, byte for byte -/

/-- C5: building the set-custom-temp payload with protocol version 1 and
temperature 179 °F yields exactly `01 F3 A3 00 B3`, and wrapping that payload
as a message frame (frame type 0x22) with sequence number 0x1C yields exactly
`A5 22 1C 05 00 CD 01 F3 A3 00 B3`, with checksum byte 0xCD from the v1
algorithm. -/
theorem set_custom_temp_frame_bytes :
    build_set_my_temp_payload 1 179 = [0x01, 0xF3, 0xA3, 0x00, 0xB3] ∧
    (Envelope.build MESSAGE_HEADER_TYPE 0x1C
        (build_set_my_temp_payload 1 179)).map Envelope.buffer
      = some [0xA5, 0x22, 0x1C, 0x05, 0x00, 0xCD, 0x01, 0xF3, 0xA3, 0x00, 0xB3] := by
  constructor
  · decide
  · decide

/-! ## Claim C3: busy rejection of send_command -/

/-- C3: while a send session is active (a chunk is still unsent, or a write
acknowledgment is pending), `send_command` returns failure and leaves the
entire engine state — in particular the send buffer, chunk indices and
write-ack flag — unchanged. -/
theorem send_command_rejected_while_busy (st : EngineState)
    (h : st.send_chunk_index < st.send_total_chunks ∨
         st.waiting_for_write_ack = true)
    (seq : Nat) (payload : List Nat) (is_ack : Bool) :
    st.send_command seq payload is_ack = (false, st) := by
  unfold EngineState.send_command
  rcases h with h | h
  · rcases hw : st.waiting_for_write_ack with _ | _
    · simp [hw, h]
    · simp [hw]
  · simp [h]

/-- Witness for C3: a concrete busy state (awaiting a write ack) rejects a
concrete stop command. -/
theorem send_command_rejected_while_busy_witness :
    ({ EngineState.init with waiting_for_write_ack := true } : EngineState).send_command
        5 (build_stop_payload 1) false
      = (false, { EngineState.init with waiting_for_write_ack := true }) :=
  send_command_rejected_while_busy _ (Or.inr rfl) 5 (build_stop_payload 1) false

/-! ## Claim C4: what the disconnect reset clears

`CosoriKettleState::reset` (cosori_kettle_state.cpp lines 88-95) clears the
receive buffer, the liveness fields and the send session, but it does not
touch the three pending flags. -/

/-- C4 counterexample: with all three pending flags set, `reset` leaves them
set — the claim that the disconnect reset clears `pending_hold_time`,
`pending_my_temp` and `pending_baby_formula` is false. -/
theorem reset_does_not_clear_pending_flags :
    (({ EngineState.init with
        pending_hold_time := true, pending_my_temp := true,
        pending_baby_formula := true } : EngineState).reset).pending_hold_time = true ∧
    (({ EngineState.init with
        pending_hold_time := true, pending_my_temp := true,
        pending_baby_formula := true } : EngineState).reset).pending_my_temp = true ∧
    (({ EngineState.init with
        pending_hold_time := true, pending_my_temp := true,
        pending_baby_formula := true } : EngineState).reset).pending_baby_formula = true := by
  exact ⟨rfl, rfl, rfl⟩

/-- C4 as amended: the disconnect reset clears the send session (chunk
index, chunk total, write-ack wait), the receive buffer and the liveness
fields `status_received` / `no_response_count`, while leaving the user-intent
fields `target_setpoint_f`, `my_temp_f`, `hold_time_seconds`,
`baby_formula_enabled` — and also the three pending flags — unchanged. -/
theorem reset_clears_protocol_state_only (st : EngineState) :
    (st.reset.recv_buffer = Envelope.empty) ∧
    st.reset.status_received = false ∧
    st.reset.no_response_count = 0 ∧
    st.reset.send_chunk_index = 0 ∧
    st.reset.send_total_chunks = 0 ∧
    st.reset.waiting_for_write_ack = false ∧
    st.reset.target_setpoint_f = st.target_setpoint_f ∧
    st.reset.my_temp_f = st.my_temp_f ∧
    st.reset.hold_time_seconds = st.hold_time_seconds ∧
    st.reset.baby_formula_enabled = st.baby_formula_enabled ∧
    st.reset.pending_hold_time = st.pending_hold_time ∧
    st.reset.pending_my_temp = st.pending_my_temp ∧
    st.reset.pending_baby_formula = st.pending_baby_formula := by
  refine ⟨rfl, rfl, rfl, rfl, rfl, rfl, rfl, rfl, rfl, rfl, rfl, rfl, rfl⟩

/-! ## Claim C9: layout of the set-hold-time payload -/

/-- C9 counterexample: at version 1 and 2100 seconds the set-hold-time
payload has 8 bytes (not 7), its byte at offset 4 is the `0x00` pad (not a
nonzero enable flag), and the enable flag sits at offset 5. -/
theorem set_hold_time_payload_not_seven_bytes :
    (build_set_hold_time_payload 1 2100).length = 8 ∧
    (build_set_hold_time_payload 1 2100).length ≠ 7 ∧
    build_set_hold_time_payload 1 2100
      = [0x01, 0xF2, 0xA3, 0x00, 0x00, 0x01, 0x08, 0x34] ∧
    (build_set_hold_time_payload 1 2100).getD 4 0 = 0 := by
  refine ⟨rfl, by decide, rfl, rfl⟩

/-- C9 as amended: for every protocol version and every seconds value, the
set-hold-time payload (command 0xF2) is the common 4-byte prefix
`[protocol_version][0xF2][0xA3][0x00]` followed by a `0x00` pad byte at
offset 4, the enable flag (nonzero iff seconds > 0) at offset 5, and the
two seconds bytes big-endian at offsets 6-7 — a total length of 8 bytes. -/
theorem set_hold_time_payload_layout (v s : Nat) :
    (build_set_hold_time_payload v s).length = 8 ∧
    (build_set_hold_time_payload v s).take 4
      = [v % 256, CMD_SET_HOLD_TIME, CMD_TYPE_A3, 0x00] ∧
    (build_set_hold_time_payload v s).getD 4 0 = 0x00 ∧
    ((build_set_hold_time_payload v s).getD 5 0 ≠ 0 ↔ 0 < s % 65536) ∧
    (build_set_hold_time_payload v s).getD 6 0 * 256
        + (build_set_hold_time_payload v s).getD 7 0 = s % 65536 := by
  unfold build_set_hold_time_payload
  refine ⟨rfl, rfl, rfl, ?_, ?_⟩
  · simp only [List.getD]
    split <;> simp_all
  · simp only [List.getD, Nat.shiftRight_eq_div_pow]
    show s % 65536 / 2 ^ 8 % 256 * 256 + s % 65536 % 256 = s % 65536
    omega

/-- Witness for C9 (amended): the layout at version 1 and 2100 seconds,
with the hypothesis-free conjuncts of the theorem instantiated. -/
theorem set_hold_time_payload_layout_witness :
    (build_set_hold_time_payload 1 2100).length = 8 ∧
    (build_set_hold_time_payload 1 2100).getD 5 0 ≠ 0 ∧
    (build_set_hold_time_payload 1 2100).getD 6 0 * 256
        + (build_set_hold_time_payload 1 2100).getD 7 0 = 2100 :=
  ⟨(set_hold_time_payload_layout 1 2100).1,
   ((set_hold_time_payload_layout 1 2100).2.2.2.1).mpr (by decide),
   (set_hold_time_payload_layout 1 2100).2.2.2.2⟩

/-! ## Claim C10: the public setters clamp to [104, 212] °F -/

lemma send_next_chunk_my_temp_f (st : EngineState) :
    st.send_next_chunk.my_temp_f = st.my_temp_f := by
  unfold EngineState.send_next_chunk
  split
  · rfl
  · split
    · rfl
    · split
      · rfl
      · dsimp only
        split <;> rfl

lemma send_command_my_temp_f (st : EngineState) (seq : Nat) (payload : List Nat)
    (is_ack : Bool) :
    (st.send_command seq payload is_ack).2.my_temp_f = st.my_temp_f := by
  unfold EngineState.send_command
  split
  · rfl
  · split
    · rfl
    · dsimp only
      split <;>
        first
          | rfl
          | (split
             · rfl
             · rw [send_next_chunk_my_temp_f])

lemma send_set_my_temp_my_temp_f (st : EngineState) (t : Nat) :
    (st.send_set_my_temp t).my_temp_f = st.my_temp_f := by
  unfold EngineState.send_set_my_temp EngineState.next_tx_seq
  dsimp only
  rw [send_command_my_temp_f]

lemma set_my_temp_my_temp_f (st : EngineState) (n : Nat) :
    (st.set_my_temp n).my_temp_f =
      (if (if n % 256 < MIN_TEMP_F then MIN_TEMP_F else n % 256) > MAX_TEMP_F
       then MAX_TEMP_F
       else if n % 256 < MIN_TEMP_F then MIN_TEMP_F else n % 256) := by
  unfold EngineState.set_my_temp
  simp only [send_set_my_temp_my_temp_f]

/-- C10 counterexample: the C `float` argument of `set_target_setpoint` can
be NaN.  NaN fails both clamp comparisons, so the stored value is NaN — not
a number in [104, 212] — falsifying the claim at this input. -/
theorem set_target_setpoint_nan_escapes_clamp :
    set_target_setpoint_value CFloat.nan = CFloat.nan ∧
    ¬ ∃ q : ℚ, set_target_setpoint_value CFloat.nan = CFloat.fin q
        ∧ (MIN_TEMP_F : ℚ) ≤ q ∧ q ≤ (MAX_TEMP_F : ℚ) := by
  constructor
  · rfl
  · rintro ⟨q, hq, -, -⟩
    simp [set_target_setpoint_value, CFloat.lt] at hq

/-- C10 as amended: `set_my_temp` clamps every `uint8_t` input to
[104, 212] °F before storing it, and `set_target_setpoint` clamps every
non-NaN `float` input (finite or infinite) to a stored value in [104, 212]
— finite values below 104 are stored as 104, above 212 as 212 — while a NaN
input fails both clamp comparisons and is stored unchanged, outside the
range. -/
theorem setters_clamp_non_nan_to_valid_range (v : CFloat) (q : ℚ)
    (st : EngineState) (n : Nat) :
    (v ≠ CFloat.nan →
      ∃ r : ℚ, set_target_setpoint_value v = CFloat.fin r
        ∧ (MIN_TEMP_F : ℚ) ≤ r ∧ r ≤ (MAX_TEMP_F : ℚ)) ∧
    (q < (MIN_TEMP_F : ℚ) →
      set_target_setpoint_value (CFloat.fin q) = CFloat.fin MIN_TEMP_F) ∧
    ((MAX_TEMP_F : ℚ) < q →
      set_target_setpoint_value (CFloat.fin q) = CFloat.fin MAX_TEMP_F) ∧
    set_target_setpoint_value CFloat.nan = CFloat.nan ∧
    (MIN_TEMP_F ≤ (st.set_my_temp n).my_temp_f ∧
      (st.set_my_temp n).my_temp_f ≤ MAX_TEMP_F) ∧
    (n % 256 < MIN_TEMP_F → (st.set_my_temp n).my_temp_f = MIN_TEMP_F) ∧
    (MAX_TEMP_F < n % 256 → (st.set_my_temp n).my_temp_f = MAX_TEMP_F) := by
  have hn := set_my_temp_my_temp_f st n
  have hbound : (MIN_TEMP_F : ℚ) < (MAX_TEMP_F : ℚ) := by
    norm_num [MIN_TEMP_F, MAX_TEMP_F]
  have hmaxmin : CFloat.lt (CFloat.fin (MAX_TEMP_F : ℚ))
      (CFloat.fin (MIN_TEMP_F : ℚ)) = false := by
    norm_num [CFloat.lt, MIN_TEMP_F, MAX_TEMP_F]
  have hlow : ∀ x : ℚ, x < (MIN_TEMP_F : ℚ) →
      set_target_setpoint_value (CFloat.fin x) = CFloat.fin MIN_TEMP_F := by
    intro x hx
    have c1 : CFloat.lt (CFloat.fin x) (CFloat.fin (MIN_TEMP_F : ℚ)) = true := by
      simpa [CFloat.lt] using hx
    simp [set_target_setpoint_value, c1, hmaxmin]
  have hhigh : ∀ x : ℚ, ¬ x < (MIN_TEMP_F : ℚ) → (MAX_TEMP_F : ℚ) < x →
      set_target_setpoint_value (CFloat.fin x) = CFloat.fin MAX_TEMP_F := by
    intro x hx1 hx2
    have hx1l := le_of_not_lt hx1
    have c1 : CFloat.lt (CFloat.fin x) (CFloat.fin (MIN_TEMP_F : ℚ)) = false := by
      simp [CFloat.lt]
      linarith
    have c2 : CFloat.lt (CFloat.fin (MAX_TEMP_F : ℚ)) (CFloat.fin x) = true := by
      simpa [CFloat.lt] using hx2
    simp [set_target_setpoint_value, c1, c2]
  have hmid : ∀ x : ℚ, ¬ x < (MIN_TEMP_F : ℚ) → ¬ (MAX_TEMP_F : ℚ) < x →
      set_target_setpoint_value (CFloat.fin x) = CFloat.fin x := by
    intro x hx1 hx2
    have hx1l := le_of_not_lt hx1
    have hx2l := le_of_not_lt hx2
    have c1 : CFloat.lt (CFloat.fin x) (CFloat.fin (MIN_TEMP_F : ℚ)) = false := by
      simp [CFloat.lt]
      linarith
    have c2 : CFloat.lt (CFloat.fin (MAX_TEMP_F : ℚ)) (CFloat.fin x) = false := by
      simp [CFloat.lt]
      linarith
    simp [set_target_setpoint_value, c1, c2]
  refine ⟨?_, ?_, ?_, rfl, ?_, ?_, ?_⟩
  · intro hv
    cases v with
    | nan => exact absurd rfl hv
    | neg_inf =>
        refine ⟨MIN_TEMP_F, ?_, le_refl _, le_of_lt hbound⟩
        have c1 : CFloat.lt CFloat.neg_inf (CFloat.fin (MIN_TEMP_F : ℚ)) = true := rfl
        simp [set_target_setpoint_value, c1, hmaxmin]
    | inf =>
        refine ⟨MAX_TEMP_F, ?_, le_of_lt hbound, le_refl _⟩
        have c1 : CFloat.lt CFloat.inf (CFloat.fin (MIN_TEMP_F : ℚ)) = false := rfl
        have c2 : CFloat.lt (CFloat.fin (MAX_TEMP_F : ℚ)) CFloat.inf = true := rfl
        simp [set_target_setpoint_value, c1, c2]
    | fin x =>
        by_cases h1 : x < (MIN_TEMP_F : ℚ)
        · exact ⟨MIN_TEMP_F, hlow x h1, le_refl _, le_of_lt hbound⟩
        · by_cases h2 : (MAX_TEMP_F : ℚ) < x
          · exact ⟨MAX_TEMP_F, hhigh x h1 h2, le_of_lt hbound, le_refl _⟩
          · exact ⟨x, hmid x h1 h2, by linarith, by linarith⟩
  · intro h
    exact hlow q h
  · intro h
    exact hhigh q (by linarith) h
  · rw [hn]
    simp only [MIN_TEMP_F, MAX_TEMP_F]
    split_ifs <;> omega
  · intro h
    rw [hn]
    simp only [MIN_TEMP_F, MAX_TEMP_F] at h ⊢
    split_ifs <;> omega
  · intro h
    rw [hn]
    simp only [MIN_TEMP_F, MAX_TEMP_F] at h ⊢
    split_ifs <;> omega

/-- Witness for C10 (amended): a too-low finite setpoint (50 °F) is stored
as 104 °F, positive infinity as 212 °F, and a too-high `uint8_t` custom
temperature (250 °F) as 212 °F. -/
theorem setters_clamp_non_nan_witness :
    set_target_setpoint_value (CFloat.fin 50) = CFloat.fin MIN_TEMP_F ∧
    (∃ r : ℚ, set_target_setpoint_value CFloat.inf = CFloat.fin r
      ∧ (MIN_TEMP_F : ℚ) ≤ r ∧ r ≤ (MAX_TEMP_F : ℚ)) ∧
    (EngineState.init.set_my_temp 250).my_temp_f = 212 :=
  ⟨(setters_clamp_non_nan_to_valid_range CFloat.inf 50 EngineState.init 250).2.1
      (by norm_num [MIN_TEMP_F]),
   (setters_clamp_non_nan_to_valid_range CFloat.inf 50 EngineState.init 250).1
      (by simp),
   by
    have h :=
      (setters_clamp_non_nan_to_valid_range CFloat.inf 50 EngineState.init
        250).2.2.2.2.2.2
    simpa [MAX_TEMP_F] using h (by norm_num [MAX_TEMP_F])⟩

/-! ## Claim C6: temperature range gate in the status parsers -/

/-- C6: every status payload (compact or extended) whose current-temperature
byte (offset 7) lies outside 40-230 °F parses as invalid, and feeding it to
the engine leaves the cached device state completely unchanged; at the
boundaries, temperature bytes 39 and 231 are rejected while 40 and 230 are
accepted. -/
theorem status_parsers_reject_out_of_range_temp (st : EngineState)
    (p : List Nat)
    (h : p.getD 7 0 < MIN_VALID_READING_F ∨ p.getD 7 0 > MAX_VALID_READING_F) :
    (parse_compact_status p).valid = false ∧
    (parse_extended_status p).valid = false ∧
    st.parse_compact_status_frame p = st ∧
    st.parse_status_ack_frame p = st ∧
    (parse_compact_status [0x01, 0x41, 0x40, 0x00, 0x00, 0x00, 0xB3, 39, 0x00]).valid = false ∧
    (parse_compact_status [0x01, 0x41, 0x40, 0x00, 0x00, 0x00, 0xB3, 231, 0x00]).valid = false ∧
    (parse_compact_status [0x01, 0x41, 0x40, 0x00, 0x00, 0x00, 0xB3, 40, 0x00]).valid = true ∧
    (parse_compact_status [0x01, 0x41, 0x40, 0x00, 0x00, 0x00, 0xB3, 230, 0x00]).valid = true ∧
    (parse_extended_status [0x01, 0x40, 0x40, 0x00, 0x00, 0x00, 0xB3, 39]).valid = false ∧
    (parse_extended_status [0x01, 0x40, 0x40, 0x00, 0x00, 0x00, 0xB3, 231]).valid = false ∧
    (parse_extended_status [0x01, 0x40, 0x40, 0x00, 0x00, 0x00, 0xB3, 40]).valid = true ∧
    (parse_extended_status [0x01, 0x40, 0x40, 0x00, 0x00, 0x00, 0xB3, 230]).valid = true := by
  have hc : (parse_compact_status p).valid = false := by
    unfold parse_compact_status
    split
    · rfl
    · dsimp only
      rw [if_pos h]
      rfl
  have he : (parse_extended_status p).valid = false := by
    unfold parse_extended_status
    split
    · rfl
    · dsimp only
      rw [if_pos h]
      rfl
  refine ⟨hc, he, ?_, ?_, by decide, by decide, by decide, by decide,
          by decide, by decide, by decide, by decide⟩
  · unfold EngineState.parse_compact_status_frame
    simp [hc]
  · unfold EngineState.parse_status_ack_frame
    simp [he]

/-- Witness for C6: a payload whose temperature byte reads 0 (below 40 °F)
is rejected, and the concrete initial engine state is untouched by it. -/
theorem status_parsers_reject_out_of_range_temp_witness :
    (parse_compact_status [0x01, 0x41, 0x40, 0x00, 0x00, 0x00, 0xB3, 0x00, 0x00]).valid
        = false ∧
    EngineState.init.parse_compact_status_frame
        [0x01, 0x41, 0x40, 0x00, 0x00, 0x00, 0xB3, 0x00, 0x00] = EngineState.init :=
  ⟨(status_parsers_reject_out_of_range_temp EngineState.init
      [0x01, 0x41, 0x40, 0x00, 0x00, 0x00, 0xB3, 0x00, 0x00]
      (Or.inl (by decide))).1,
   (status_parsers_reject_out_of_range_temp EngineState.init
      [0x01, 0x41, 0x40, 0x00, 0x00, 0x00, 0xB3, 0x00, 0x00]
      (Or.inl (by decide))).2.2.1⟩

/-! ## Claim C7: liveness counter invariant and offline transition -/

lemma liveness_count_le_threshold (l : Liveness) (h : LivenessReachable l) :
    l.no_response_count ≤ 10 := by
  induction h with
  | init => decide
  | tick _ ih =>
      unfold Liveness.track
      dsimp only
      split <;> omega
  | status_frame => decide
  | disconnect => decide

/-- C7: in every reachable liveness state the no-response counter is at most
10; a tick increments it by one unless it already equals 10; the freshness
flag falls from true to false exactly when a tick observes the counter at
the threshold 10 while the flag is still true; and any successfully parsed
status frame (compact or extended) resets the counter to 0 while setting the
flag. -/
theorem no_response_count_tracking (l : Liveness) (st su : EngineState)
    (p q : List Nat) (h : LivenessReachable l)
    (hp : (parse_compact_status p).valid = true)
    (hq : (parse_extended_status q).valid = true) :
    l.no_response_count ≤ 10 ∧
    l.track.no_response_count
      = (if l.no_response_count = 10 then 10 else l.no_response_count + 1) ∧
    ((l.track.status_received = false ∧ l.status_received = true)
      ↔ (l.status_received = true ∧ l.track.no_response_count = 10)) ∧
    (st.parse_compact_status_frame p).no_response_count = 0 ∧
    (st.parse_compact_status_frame p).status_received = true ∧
    (su.parse_status_ack_frame q).no_response_count = 0 ∧
    (su.parse_status_ack_frame q).status_received = true := by
  have hle := liveness_count_le_threshold l h
  refine ⟨hle, ?_, ?_, ?_, ?_, ?_, ?_⟩
  · unfold Liveness.track
    dsimp only
    split_ifs <;> omega
  · unfold Liveness.track
    dsimp only
    rcases hsr : l.status_received with _ | _ <;> split_ifs <;> simp_all <;> omega
  · unfold EngineState.parse_compact_status_frame
    simp [hp, EngineState.reset_online_status]
  · unfold EngineState.parse_compact_status_frame
    simp [hp, EngineState.reset_online_status]
  · unfold EngineState.parse_status_ack_frame EngineState.reset_online_status
    rw [if_neg (by simp [hq])]
  · unfold EngineState.parse_status_ack_frame EngineState.reset_online_status
    rw [if_neg (by simp [hq])]
    dsimp only
    split_ifs <;> rfl

/-- Witness for C7: the initial liveness state with a concrete valid compact
status payload and a concrete valid extended status payload. -/
theorem no_response_count_tracking_witness :
    (⟨false, 0⟩ : Liveness).no_response_count ≤ 10 ∧
    (EngineState.init.parse_compact_status_frame
        [0x01, 0x41, 0x40, 0x00, 0x00, 0x00, 0xB3, 0x8F, 0x00]).no_response_count = 0 ∧
    (EngineState.init.parse_status_ack_frame
        [0x01, 0x40, 0x40, 0x00, 0x00, 0x00, 0xAF, 0x69]).status_received = true :=
  ⟨(no_response_count_tracking ⟨false, 0⟩ EngineState.init EngineState.init
      [0x01, 0x41, 0x40, 0x00, 0x00, 0x00, 0xB3, 0x8F, 0x00]
      [0x01, 0x40, 0x40, 0x00, 0x00, 0x00, 0xAF, 0x69]
      LivenessReachable.init (by decide) (by decide)).1,
   (no_response_count_tracking ⟨false, 0⟩ EngineState.init EngineState.init
      [0x01, 0x41, 0x40, 0x00, 0x00, 0x00, 0xB3, 0x8F, 0x00]
      [0x01, 0x40, 0x40, 0x00, 0x00, 0x00, 0xAF, 0x69]
      LivenessReachable.init (by decide) (by decide)).2.2.2.1,
   (no_response_count_tracking ⟨false, 0⟩ EngineState.init EngineState.init
      [0x01, 0x41, 0x40, 0x00, 0x00, 0x00, 0xB3, 0x8F, 0x00]
      [0x01, 0x40, 0x40, 0x00, 0x00, 0x00, 0xAF, 0x69]
      LivenessReachable.init (by decide) (by decide)).2.2.2.2.2.2⟩

/-! ## Claim C8: the stop sequence emits stop, status poll, stop -/

/-- States a stop-sequence run can visit. -/
def stopRunState : CommandState → Bool
  | .IDLE | .STOP | .STOP_POLL | .STOP_REPEAT => true
  | _ => false

/-- Commands already emitted by a stop-sequence run that has progressed to
the given state. -/
def emittedSoFar : CommandState → List StopCmd
  | .STOP => []
  | .STOP_POLL => [.stop]
  | .STOP_REPEAT => [.stop, .ctrl]
  | _ => [.stop, .ctrl, .stop]

lemma tick_idle (fuel t now : Nat) :
    machineTick (fuel + 1) .IDLE t now
      = (.IDLE, if t = 0 then now else t, []) := by
  simp [machineTick, stopDispatch, CONTROL_DELAY_MS, IDLE_TIMEOUT_MS]

lemma tick_stop_poll_zero (fuel now : Nat) :
    machineTick (fuel + 1) .STOP_POLL now now = (.STOP_POLL, now, []) := by
  simp [machineTick, stopDispatch, Nat.add_sub_cancel_left, CONTROL_DELAY_MS, IDLE_TIMEOUT_MS]

lemma tick_stop_repeat_zero (fuel now : Nat) :
    machineTick (fuel + 1) .STOP_REPEAT now now = (.STOP_REPEAT, now, []) := by
  simp [machineTick, stopDispatch, Nat.add_sub_cancel_left, CONTROL_DELAY_MS, IDLE_TIMEOUT_MS]

lemma tick_stop (fuel t now : Nat) :
    machineTick (fuel + 2) .STOP t now = (.STOP_POLL, now, [.stop]) := by
  show machineTick (fuel + 1 + 1) .STOP t now = _
  simp [machineTick, stopDispatch, tick_stop_poll_zero, Nat.add_sub_cancel_left, CONTROL_DELAY_MS, IDLE_TIMEOUT_MS]

lemma tick_stop_poll_wait (fuel t now : Nat)
    (hlt : (now + U32 - (if t = 0 then now else t)) % U32 < CONTROL_DELAY_MS) :
    machineTick (fuel + 1) .STOP_POLL t now
      = (.STOP_POLL, if t = 0 then now else t, []) := by
  simp only [machineTick, stopDispatch]
  rw [if_pos hlt]
  simp [IDLE_TIMEOUT_MS, CONTROL_DELAY_MS] at hlt ⊢
  omega

lemma tick_stop_poll_fire (fuel t now : Nat)
    (hge : ¬ (now + U32 - (if t = 0 then now else t)) % U32 < CONTROL_DELAY_MS) :
    machineTick (fuel + 2) .STOP_POLL t now = (.STOP_REPEAT, now, [.ctrl]) := by
  have h1 := tick_stop_repeat_zero fuel now
  generalize hg : fuel + 1 = g at h1
  rw [show fuel + 2 = g + 1 by omega]
  simp only [machineTick, stopDispatch]
  rw [if_neg hge]
  simp [h1, CONTROL_DELAY_MS, IDLE_TIMEOUT_MS]

lemma tick_stop_repeat_wait (fuel t now : Nat)
    (hlt : (now + U32 - (if t = 0 then now else t)) % U32 < CONTROL_DELAY_MS) :
    machineTick (fuel + 1) .STOP_REPEAT t now
      = (.STOP_REPEAT, if t = 0 then now else t, []) := by
  simp only [machineTick, stopDispatch]
  rw [if_pos hlt]
  simp [IDLE_TIMEOUT_MS, CONTROL_DELAY_MS] at hlt ⊢
  omega

lemma tick_stop_repeat_fire (fuel t now : Nat)
    (hge : ¬ (now + U32 - (if t = 0 then now else t)) % U32 < CONTROL_DELAY_MS) :
    (machineTick (fuel + 2) .STOP_REPEAT t now).1 = .IDLE ∧
    (machineTick (fuel + 2) .STOP_REPEAT t now).2.2 = [.stop] := by
  have h1 := tick_idle fuel (if t = 0 then now else t) now
  generalize hg : fuel + 1 = g at h1
  rw [show fuel + 2 = g + 1 by omega]
  simp only [machineTick, stopDispatch]
  rw [if_neg hge]
  simp [h1, CONTROL_DELAY_MS, IDLE_TIMEOUT_MS]

/-- One engine tick keeps a stop-sequence run within the stop states and
extends the emission trace consistently with the state reached. -/
lemma machine_tick_stop_step (cs : CommandState) (t now : Nat)
    (h : stopRunState cs = true) :
    stopRunState (machine_tick cs t now).1 = true ∧
    emittedSoFar cs ++ (machine_tick cs t now).2.2
      = emittedSoFar (machine_tick cs t now).1 := by
  cases cs <;> simp_all [stopRunState] <;> unfold machine_tick
  · rw [show (12 : Nat) = 11 + 1 from rfl, tick_idle]
    simp [emittedSoFar, stopRunState]
  · rw [show (12 : Nat) = 10 + 2 from rfl, tick_stop]
    simp [emittedSoFar, stopRunState]
  · by_cases hlt :
      ((now % U32) + U32 - (if t = 0 then now % U32 else t)) % U32 < CONTROL_DELAY_MS
    · rw [show (12 : Nat) = 11 + 1 from rfl, tick_stop_poll_wait 11 t (now % U32) hlt]
      simp [emittedSoFar, stopRunState]
    · rw [show (12 : Nat) = 10 + 2 from rfl, tick_stop_poll_fire 10 t (now % U32) hlt]
      simp [emittedSoFar, stopRunState]
  · by_cases hlt :
      ((now % U32) + U32 - (if t = 0 then now % U32 else t)) % U32 < CONTROL_DELAY_MS
    · rw [show (12 : Nat) = 11 + 1 from rfl, tick_stop_repeat_wait 11 t (now % U32) hlt]
      simp [emittedSoFar, stopRunState]
    · obtain ⟨h1, h2⟩ := tick_stop_repeat_fire 10 t (now % U32) hlt
      rw [show (12 : Nat) = 10 + 2 from rfl, h1, h2]
      simp [emittedSoFar, stopRunState]

lemma runTicks_stop_invariant (nows : List Nat) :
    ∀ cs t, stopRunState cs = true →
      stopRunState (runTicks cs t nows).1 = true ∧
      emittedSoFar cs ++ (runTicks cs t nows).2.2
        = emittedSoFar (runTicks cs t nows).1 := by
  induction nows with
  | nil => intro cs t h; simpa [runTicks] using h
  | cons now rest ih =>
      intro cs t h
      obtain ⟨h1, h2⟩ := machine_tick_stop_step cs t now h
      obtain ⟨h3, h4⟩ :=
        ih (machine_tick cs t now).1 (machine_tick cs t now).2.1 h1
      rcases hmt : machine_tick cs t now with ⟨cs1, t1, o1⟩
      rw [hmt] at h1 h2 h3 h4
      rcases hrt : runTicks cs1 t1 rest with ⟨cs2, t2, o2⟩
      rw [hrt] at h3 h4
      refine ⟨by simpa [runTicks, hmt, hrt] using h3, ?_⟩
      simp only [runTicks, hmt, hrt]
      calc emittedSoFar cs ++ (o1 ++ o2)
          = (emittedSoFar cs ++ o1) ++ o2 := by rw [List.append_assoc]
        _ = emittedSoFar cs1 ++ o2 := by rw [h2]
        _ = emittedSoFar cs2 := h4

/-- C8: every run of the stop sequence — starting in the `STOP` state with
any entry timestamp and ticked at any sequence of clock values — that ends
in `IDLE` has emitted exactly two stop commands with exactly one
compact-status request between them: a stop on entering the stop state, a
status poll after the control delay, then a second stop before settling to
idle. -/
theorem stop_sequence_emits_stop_poll_stop (nows : List Nat) (t : Nat)
    (h : (runTicks .STOP t nows).1 = .IDLE) :
    (runTicks .STOP t nows).2.2 = [.stop, .ctrl, .stop] := by
  obtain ⟨_, h2⟩ := runTicks_stop_invariant nows .STOP t rfl
  rw [h] at h2
  simpa [emittedSoFar] using h2

/-- Witness for C8: a concrete three-tick run (at 5 ms, 60 ms, 115 ms)
reaches `IDLE` and emits stop, status poll, stop. -/
theorem stop_sequence_emits_stop_poll_stop_witness :
    (runTicks .STOP 0 [5, 60, 115]).1 = .IDLE ∧
    (runTicks .STOP 0 [5, 60, 115]).2.2 = [.stop, .ctrl, .stop] :=
  ⟨by decide, stop_sequence_emits_stop_poll_stop [5, 60, 115] 0 (by decide)⟩

/-! ## Frame codec lemmas for claims C1 and C2 -/

lemma findMagicIdx_found (l : List Nat) (j : Nat) (h : Envelope.findMagicIdx l = some j) :
    j < l.length ∧ l.getD j 0 = FRAME_MAGIC := by
  induction l generalizing j with
  | nil => simp [Envelope.findMagicIdx] at h
  | cons b rest ih =>
      unfold Envelope.findMagicIdx at h
      by_cases hb : b = FRAME_MAGIC
      · rw [if_pos hb] at h
        cases h
        simpa using hb
      · rw [if_neg hb] at h
        rcases Option.map_eq_some'.mp h with ⟨j', hj', rfl⟩
        obtain ⟨h1, h2⟩ := ih j' hj'
        exact ⟨by simpa using Nat.succ_lt_succ h1, by simpa using h2⟩

lemma getD_drop_add (l : List Nat) (p j : Nat) :
    (l.drop p).getD j 0 = l.getD (p + j) 0 := by
  simp [List.getD_eq_getElem?_getD, List.getElem?_drop]

/-- Changing the byte in the checksum slot (index 5) does not change the
checksum: the v1 fold substitutes index 5 by `0x01`, and the v0 header sum
only reads indices 0-4. -/
lemma calculate_checksum_slot5 (a b c d e x y : Nat) (rest : List Nat) :
    calculate_checksum (a :: b :: c :: d :: e :: x :: rest)
      = calculate_checksum (a :: b :: c :: d :: e :: y :: rest) := by
  unfold calculate_checksum
  have h1 : (a :: b :: c :: d :: e :: x :: rest).getD 6 0 = rest.getD 0 0 := rfl
  have h2 : (a :: b :: c :: d :: e :: y :: rest).getD 6 0 = rest.getD 0 0 := rfl
  rw [h1, h2]
  simp only [List.length_cons]
  split_ifs <;> rfl

/-- Reassembling `len_lo | (len_hi << 8)` recovers the payload length when
it is at most 256. -/
lemma lor_len_reconstruct (L : Nat) (h : L ≤ 256) :
    (L % 256) ||| (((L >>> 8) % 256) <<< 8) = L := by
  rcases Nat.lt_or_ge L 256 with h1 | h1
  · have e1 : L % 256 = L := Nat.mod_eq_of_lt h1
    have e2 : L >>> 8 = 0 := by
      rw [Nat.shiftRight_eq_div_pow]
      exact Nat.div_eq_of_lt (by omega)
    simp [e1, e2]
  · have hL : L = 256 := Nat.le_antisymm h h1
    subst hL
    decide

lemma build_some (ft seq : Nat) (payload : List Nat) (h : payload.length ≤ 506) :
    Envelope.build ft seq payload
      = some ⟨FRAME_MAGIC :: ft % 256 :: seq % 256 :: payload.length % 256 ::
          (payload.length >>> 8) % 256 ::
          calculate_checksum (FRAME_MAGIC :: ft % 256 :: seq % 256 ::
            payload.length % 256 :: (payload.length >>> 8) % 256 :: 0x01 :: payload) ::
          payload, 0⟩ := by
  unfold Envelope.build
  rw [if_neg (by simp [ENVELOPE_BUFFER_SIZE]; omega)]
  rfl

/-- Processing a buffer that holds exactly one well-formed frame from
position 0 extracts that frame and moves the cursor past it. -/
lemma process_single_frame (ftype s lo hi c : Nat) (payload : List Nat)
    (maxp : Nat) (hlen : lo ||| (hi <<< 8) = payload.length)
    (hmax : payload.length ≤ maxp)
    (hc : c = calculate_checksum
        (FRAME_MAGIC :: ftype :: s :: lo :: hi :: c :: payload)) :
    Envelope.process_next_frame
        ⟨FRAME_MAGIC :: ftype :: s :: lo :: hi :: c :: payload, 0⟩ maxp
      = (⟨ftype, s, payload.length, payload, true⟩,
         ⟨FRAME_MAGIC :: ftype :: s :: lo :: hi :: c :: payload,
          6 + payload.length⟩) := by
  have hsz : (⟨FRAME_MAGIC :: ftype :: s :: lo :: hi :: c :: payload, 0⟩ :
      Envelope).size = payload.length + 6 := by
    simp [Envelope.size]
  have hfind : Envelope.find_frame_start
      ⟨FRAME_MAGIC :: ftype :: s :: lo :: hi :: c :: payload, 0⟩ = 0 := by
    simp [Envelope.find_frame_start, Envelope.findMagicIdx]
  have hval : Envelope.validate_frame_header_at_pos
      ⟨FRAME_MAGIC :: ftype :: s :: lo :: hi :: c :: payload, 0⟩
        = some (ftype, s, lo ||| (hi <<< 8), c) := by
    unfold Envelope.validate_frame_header_at_pos
    rw [if_neg (by simp [Envelope.size])]
    rw [if_neg (by simp [List.getD])]
    rfl
  suffices h : ∀ n, Envelope.processNextFrameAux maxp (n + 1)
      ⟨FRAME_MAGIC :: ftype :: s :: lo :: hi :: c :: payload, 0⟩
      = (⟨ftype, s, payload.length, payload, true⟩,
         ⟨FRAME_MAGIC :: ftype :: s :: lo :: hi :: c :: payload,
          6 + payload.length⟩) by
    unfold Envelope.process_next_frame
    rw [hsz]
    exact h _
  intro n
  simp only [Envelope.processNextFrameAux, hfind]
  rw [if_neg (by simp [hsz])]
  have heta : ({ (⟨FRAME_MAGIC :: ftype :: s :: lo :: hi :: c :: payload, 0⟩ :
      Envelope) with pos := 0 } : Envelope)
      = ⟨FRAME_MAGIC :: ftype :: s :: lo :: hi :: c :: payload, 0⟩ := rfl
  rw [heta, hval]
  simp only [hlen]
  rw [if_neg (by omega)]
  rw [if_neg (by simp [Envelope.size]; omega)]
  have htake : ((FRAME_MAGIC :: ftype :: s :: lo :: hi :: c :: payload).drop 0).take
      (6 + payload.length)
      = FRAME_MAGIC :: ftype :: s :: lo :: hi :: c :: payload := by
    rw [List.drop_zero]
    have : 6 + payload.length
        = (FRAME_MAGIC :: ftype :: s :: lo :: hi :: c :: payload).length := by
      simp; omega
    rw [this, List.take_length]
  rw [htake]
  rw [if_neg (not_not_intro hc)]
  have hpay : ((FRAME_MAGIC :: ftype :: s :: lo :: hi :: c :: payload).drop
      (0 + 6)).take payload.length = payload := by
    show payload.take payload.length = payload
    exact List.take_length payload
  rw [hpay]
  rw [Nat.zero_add]

/-! ## Claim C1: build/extract round trip -/

/-- C1: for every frame type, sequence number and byte payload of length at
most 256 (the engine maximum), building a frame with `Envelope::build` and
extracting from those exact bytes with `process_next_frame` (max payload
256) yields a valid frame with the same frame type, sequence number and
payload.  The statement covers every payload content, in particular both a
leading version byte 0 (v0 header-sum checksum) and 1 (v1 subtractive
checksum). -/
theorem build_process_next_frame_roundtrip (ft seq : Nat) (payload : List Nat)
    (hft : ft < 256) (hseq : seq < 256) (_hbytes : ∀ b ∈ payload, b < 256)
    (hlen : payload.length ≤ 256) :
    ∃ e, Envelope.build ft seq payload = some e ∧
      (e.process_next_frame 256).1
        = ⟨ft, seq, payload.length, payload, true⟩ := by
  have hb := build_some ft seq payload (by omega)
  refine ⟨_, hb, ?_⟩
  have hc : calculate_checksum (FRAME_MAGIC :: ft % 256 :: seq % 256 ::
        payload.length % 256 :: (payload.length >>> 8) % 256 :: 0x01 :: payload)
      = calculate_checksum (FRAME_MAGIC :: ft % 256 :: seq % 256 ::
        payload.length % 256 :: (payload.length >>> 8) % 256 ::
        calculate_checksum (FRAME_MAGIC :: ft % 256 :: seq % 256 ::
          payload.length % 256 :: (payload.length >>> 8) % 256 :: 0x01 :: payload) ::
        payload) :=
    calculate_checksum_slot5 _ _ _ _ _ _ _ _
  have hp := process_single_frame (ft % 256) (seq % 256) (payload.length % 256)
    ((payload.length >>> 8) % 256) _ payload 256
    (lor_len_reconstruct payload.length hlen) hlen hc
  rw [hp]
  rw [Nat.mod_eq_of_lt hft, Nat.mod_eq_of_lt hseq]

/-- Witness for C1: the round trip at frame type 0x22, sequence 0x1C and the
concrete five-byte v1 payload `01 F3 A3 00 B3`. -/
theorem build_process_next_frame_roundtrip_witness :
    ∃ e, Envelope.build 0x22 0x1C [0x01, 0xF3, 0xA3, 0x00, 0xB3] = some e ∧
      (e.process_next_frame 256).1
        = ⟨0x22, 0x1C, 5, [0x01, 0xF3, 0xA3, 0x00, 0xB3], true⟩ :=
  build_process_next_frame_roundtrip 0x22 0x1C [0x01, 0xF3, 0xA3, 0x00, 0xB3]
    (by decide) (by decide) (by decide) (by decide)

/-! ## Claim C2: a magic byte with an incomplete header is skipped -/

/-- C2 counterexample: a buffer holding only the magic byte `0xA5` (fewer
than 6 bytes from the magic byte onward).  `process_next_frame` reports no
frame, but the read cursor ends at the end of the buffer (position 1), not
at the magic byte (position 0): the partial header is discarded, not
retained. -/
theorem incomplete_header_cursor_not_at_magic :
    ((⟨[0xA5], 0⟩ : Envelope).process_next_frame 256).1.valid = false ∧
    ((⟨[0xA5], 0⟩ : Envelope).process_next_frame 256).2.pos = 1 ∧
    ((⟨[0xA5], 0⟩ : Envelope).process_next_frame 256).2.pos ≠ 0 := by
  decide

lemma processAux_all_magic_short (maxp : Nat) :
    ∀ fuel (e : Envelope), e.size - e.pos < fuel →
      (∀ i, e.pos ≤ i → i < e.size → e.buffer.getD i 0 = FRAME_MAGIC →
        e.size - i < 6) →
      Envelope.processNextFrameAux maxp fuel e
        = (Envelope.FrameInfo.invalid, { e with pos := e.size }) := by
  intro fuel
  induction fuel with
  | zero => intro e hf _; exact absurd hf (Nat.not_lt_zero _)
  | succ fuel ih =>
      intro e hf hshort
      simp only [Envelope.processNextFrameAux]
      rcases hfind : Envelope.findMagicIdx (e.buffer.drop e.pos) with _ | j
      · have h1 : Envelope.find_frame_start e = e.size := by
          simp [Envelope.find_frame_start, hfind]
        rw [h1, if_pos (Nat.le_refl _)]
      · obtain ⟨hj1, hj2⟩ := findMagicIdx_found _ _ hfind
        rw [List.length_drop] at hj1
        have hmag : e.buffer.getD (e.pos + j) 0 = FRAME_MAGIC := by
          rw [← getD_drop_add]; exact hj2
        have h1 : Envelope.find_frame_start e = e.pos + j := by
          simp [Envelope.find_frame_start, hfind]
        have hlt : e.pos + j < e.size := by
          simp only [Envelope.size]; omega
        rw [h1, if_neg (by omega)]
        have hshort1 : e.size - (e.pos + j) < 6 :=
          hshort _ (Nat.le_add_right _ _) hlt hmag
        have hval : Envelope.validate_frame_header_at_pos
            { e with pos := e.pos + j } = none := by
          unfold Envelope.validate_frame_header_at_pos
          rw [if_pos (by simp only [Envelope.size] at hshort1 hlt ⊢; omega)]
        rw [hval]
        refine ih { e with pos := e.pos + j + 1 } ?_ ?_
        · show e.buffer.length - (e.pos + j + 1) < fuel
          simp only [Envelope.size] at hf hlt
          omega
        · intro i hi1 hi2 hi3
          have hi1r : e.pos + j + 1 ≤ i := hi1
          exact hshort i (by omega) hi2 hi3

/-- C2 as amended: in every buffer state in which a magic byte (0xA5) is
present at or after the read cursor but every such magic byte has fewer
than 6 bytes buffered from it onward, `process_next_frame` reports no frame
(valid = false) and advances the read cursor to the end of the buffer: the
magic byte and its partial header are skipped, not retained. -/
theorem incomplete_header_magic_skipped (e : Envelope) (maxp : Nat)
    (hmagic : ∃ i, e.pos ≤ i ∧ i < e.size ∧ e.buffer.getD i 0 = FRAME_MAGIC)
    (hshort : ∀ i, e.pos ≤ i → i < e.size → e.buffer.getD i 0 = FRAME_MAGIC →
      e.size - i < 6) :
    (e.process_next_frame maxp).1.valid = false ∧
    (e.process_next_frame maxp).2.pos = e.size := by
  have h := processAux_all_magic_short maxp (e.size + 1) e (by omega) hshort
  unfold Envelope.process_next_frame
  rw [h]
  exact ⟨rfl, rfl⟩

/-- Witness for C2 (amended): the single-byte buffer `A5` satisfies the
hypotheses, and processing it skips the magic byte. -/
theorem incomplete_header_magic_skipped_witness :
    ((⟨[0xA5], 0⟩ : Envelope).process_next_frame 256).1.valid = false ∧
    ((⟨[0xA5], 0⟩ : Envelope).process_next_frame 256).2.pos
      = (⟨[0xA5], 0⟩ : Envelope).size :=
  incomplete_header_magic_skipped ⟨[0xA5], 0⟩ 256
    ⟨0, Nat.le_refl 0, by decide, by decide⟩
    (fun i h1 h2 _ => by
      simp only [Envelope.size, List.length_cons, List.length_nil] at h2 ⊢
      omega)

end CosoriKettle
